import Mathlib

/-!
Verification development for the autonomous-orchestrator coordination layer.

The development shallowly embeds the Python sources of the repository:

* `checkpoint_agent.py` (the Checkpoint Engine: `assess_risk` and its four
  sub-score helpers),
* `context_agent.py` (the Context Memory Engine: `summarize`, `get_injection`,
  `_create_summary` and `estimate_tokens`),
* `impact_agent.py` (the Impact Engine: `assess_impact`,
  `_generate_recommendation` and the four conflict detectors),
* `harness_agent.py` (the State Store: `write_blackboard`).

Python values flowing through the checkpoint and context engines are
dynamically typed, and several of the specified behaviours depend on the
dynamic failure modes (TypeError, AttributeError, NameError) of the original
code.  A small model of Python values (`PyVal`) and a Python exception monad
(`PyM`) are therefore used wherever the source code manipulates untyped
dicts.  JSON persistence is modelled at the data level: a stored document is
its parsed value, reads of a missing or unparseable document yield the
read-site default exactly as `read_json_file` does, and file writes are
modelled as infallible state updates (device level I/O faults are outside the
model).  Machine integers are modelled as `Int` (Python ints are unbounded,
so no overflow wrap is needed).  Wall-clock timestamps are passed explicitly
as a `now : Int` argument.
-/

/-- Model of a dynamically typed Python/JSON value. -/
inductive PyVal where
  | none
  | bool (b : Bool)
  | int (n : Int)
  | str (s : String)
  | list (xs : List PyVal)
  | dict (kvs : List (String × PyVal))
deriving Repr

/-- Model of the Python exceptions raised by the embedded code. -/
inductive PyErr where
  | typeError (msg : String)
  | attributeError (msg : String)
  | nameError (msg : String)
deriving Repr, DecidableEq

/-- Rendering of an exception, standing in for Python `str(e)` in f-strings. -/
def pyErrStr : PyErr → String
  | .typeError msg => msg
  | .attributeError msg => msg
  | .nameError msg => msg

/-- Computations that may raise a Python exception. -/
abbrev PyM := Except PyErr

/-- Association-list lookup modelling `dict.get(key, default)` on a Python
dict (keys of a real dict are unique; lookup takes the first match). -/
def dictGet (kvs : List (String × PyVal)) (k : String) (dfl : PyVal) : PyVal :=
  match kvs with
  | [] => dfl
  | (k0, v) :: rest => if k0 = k then v else dictGet rest k dfl

/-- Python truthiness of a value (`if x:`). -/
def pyTruthy : PyVal → Bool
  | .none => false
  | .bool b => b
  | .int n => n ≠ 0
  | .str s => s ≠ ""
  | .list xs => !xs.isEmpty
  | .dict kvs => !kvs.isEmpty

/-- Python `len(x)`: defined for strings, lists and dicts, a TypeError
otherwise. -/
def pyLen : PyVal → PyM Nat
  | .str s => pure s.length
  | .list xs => pure xs.length
  | .dict kvs => pure kvs.length
  | _ => throw (.typeError "object has no len")

/-- Python `==` on the modelled values.  Python compares `bool` and `int`
numerically (`True == 1`); values of otherwise different types compare
unequal rather than raising. -/
def pyEq : PyVal → PyVal → Bool
  | .none, .none => true
  | .bool a, .bool b => a == b
  | .bool a, .int b => (if a then (1 : Int) else 0) == b
  | .int a, .bool b => a == (if b then (1 : Int) else 0)
  | .int a, .int b => a == b
  | .str a, .str b => a == b
  | .list as, .list bs => pyEqList as bs
  | .dict as, .dict bs => pyEqDict as bs
  | _, _ => false
where
  pyEqList : List PyVal → List PyVal → Bool
    | [], [] => true
    | a :: as, b :: bs => pyEq a b && pyEqList as bs
    | _, _ => false
  pyEqDict : List (String × PyVal) → List (String × PyVal) → Bool
    | [], [] => true
    | (ka, va) :: as, (kb, vb) :: bs => ka == kb && pyEq va vb && pyEqDict as bs
    | _, _ => false

/-- Python `str(x)` (total; the exact rendering of containers is only used
inside generated free-text messages). -/
def pyStr : PyVal → String
  | .none => "None"
  | .bool b => if b then "True" else "False"
  | .int n => toString n
  | .str s => s
  | .list xs => "[" ++ String.intercalate ", " (pyStrList xs) ++ "]"
  | .dict kvs => "\x7b" ++ String.intercalate ", " (pyStrDict kvs) ++ "\x7d"
where
  pyStrList : List PyVal → List String
    | [] => []
    | x :: xs => pyStr x :: pyStrList xs
  pyStrDict : List (String × PyVal) → List String
    | [] => []
    | (k, v) :: kvs => (k ++ ": " ++ pyStr v) :: pyStrDict kvs

/-- Python `x.get(key)` on a value expected to be a dict: an AttributeError
when the value is not a dict, the dict lookup (default `None`) otherwise. -/
def pyGetAttr (v : PyVal) (k : String) : PyM PyVal :=
  match v with
  | .dict kvs => pure (dictGet kvs k .none)
  | _ => throw (.attributeError "object has no attribute get")

/-- Python `x.get(key, dfl)` on a value expected to be a dict. -/
def pyGetAttrD (v : PyVal) (k : String) (dfl : PyVal) : PyM PyVal :=
  match v with
  | .dict kvs => pure (dictGet kvs k dfl)
  | _ => throw (.attributeError "object has no attribute get")

/-- Python iteration `for x in v`: lists yield their elements, strings their
characters (as one-character strings), dicts their keys; other values raise
a TypeError. -/
def pyIter : PyVal → PyM (List PyVal)
  | .list xs => pure xs
  | .str s => pure (s.toList.map fun c => .str (String.mk [c]))
  | .dict kvs => pure (kvs.map fun kv => .str kv.1)
  | _ => throw (.typeError "object is not iterable")

/-- Python string coercion for the `+` operator: raises a TypeError unless
the value is a string (mirrors `str + nonstr`). -/
def pyAsStr : PyVal → PyM String
  | .str s => pure s
  | _ => throw (.typeError "can only concatenate str to str")

/-- Lower-casing of one character (ASCII, as the embedded keyword matching
only involves ASCII text). -/
def lcChar (c : Char) : Char :=
  if 65 ≤ c.toNat ∧ c.toNat ≤ 90 then Char.ofNat (c.toNat + 32) else c

/-- Python `s.lower()` on the modelled strings. -/
def strLower (s : String) : String := String.mk (s.toList.map lcChar)

/-- Python `x.lower()` on a value expected to be a string: an AttributeError
when the value is not a string. -/
def pyAttrLower : PyVal → PyM String
  | .str s => pure (strLower s)
  | _ => throw (.attributeError "object has no attribute lower")

/-- List-of-characters prefix test, helper for substring search. -/
def charsPrefix : List Char → List Char → Bool
  | [], _ => true
  | _ :: _, [] => false
  | p :: ps, c :: cs => p == c && charsPrefix ps cs

/-- Substring search on character lists, helper for Python `pat in text`. -/
def charsContains (hay pat : List Char) : Bool :=
  match hay with
  | [] => pat.isEmpty
  | _ :: rest => charsPrefix pat hay || charsContains rest pat

/-- Python `pat in text` for strings. -/
def strContains (text pat : String) : Bool :=
  charsContains text.toList pat.toList

/-- Python word character, the `\w` class of `re` restricted to ASCII
(letters, digits, underscore). -/
def isWordChar (c : Char) : Bool :=
  (65 ≤ c.toNat && c.toNat ≤ 90) || (97 ≤ c.toNat && c.toNat ≤ 122) ||
  (48 ≤ c.toNat && c.toNat ≤ 57) || c == '_'

/-- Maximal runs of word characters, modelling `re.findall(r"\w+", s)`. -/
def findWordRuns (cs : List Char) : List String :=
  go cs []
where
  go : List Char → List Char → List String
    | [], acc => if acc.isEmpty then [] else [String.mk acc.reverse]
    | c :: rest, acc =>
      if isWordChar c then go rest (c :: acc)
      else if acc.isEmpty then go rest []
      else String.mk acc.reverse :: go rest []

/-- Word set of a string: the distinct words of `re.findall(r"\w+", s)`,
modelled as a deduplicated list. -/
def wordSet (s : String) : List String :=
  (findWordRuns s.toList).dedup

/-! ## Checkpoint Engine (`checkpoint_agent.py`)

The Checkpoint Engine is embedded over dynamically typed feature dicts.  Its
file-system inputs (the five most-recently-modified per-feature log records)
are passed as a list `logDocs : List PyVal` of parsed log documents in
most-recent-first order, a missing or unparseable log document appearing as
`PyVal.none` (the `read_json_file` default).  The persistence side effects
of `assess_risk` (`_save_decision`, `write_blackboard`, progress events) do
not influence the returned decision and are modelled as infallible. -/

/-- A Python dict with string keys, the type of feature descriptors. -/
abbrev PyDict := List (String × PyVal)

/-- Breakdown of the risk score by factor (`RiskFactors`). -/
structure RiskFactors where
  file_count_score : Int
  file_type_score : Int
  recent_failures_score : Int
  blast_radius_score : Int
  total_score : Int
deriving Repr, DecidableEq

/-- Checkpoint decision for a feature (`CheckpointDecision`). -/
structure CheckpointDecision where
  feature_id : PyVal
  decision : String
  risk_score : Int
  risk_factors : RiskFactors
  reason : String
  timestamp : Int
  approved : Option Bool := Option.none
  approved_at : Option Int := Option.none
  skipped : Option Bool := Option.none
deriving Repr

/-- Threshold `AUTO_PROCEED_THRESHOLD`. -/
def AUTO_PROCEED_THRESHOLD : Int := 30

/-- Threshold `SOFT_CHECKPOINT_THRESHOLD`. -/
def SOFT_CHECKPOINT_THRESHOLD : Int := 70

/-- The dict `HIGH_RISK_PATTERNS`, in source order. -/
def HIGH_RISK_PATTERNS : List (String × Int) :=
  [("auth", 30), ("login", 30), ("password", 30), ("token", 30),
   ("session", 30), ("payment", 30), ("billing", 30), ("checkout", 30),
   ("stripe", 30), ("paypal", 30), ("migration", 25), ("schema", 25),
   ("database", 25), ("sql", 25)]

/-- The dict `MEDIUM_RISK_PATTERNS`, in source order. -/
def MEDIUM_RISK_PATTERNS : List (String × Int) :=
  [("api", 15), ("endpoint", 15), ("route", 15),
   ("service", 20), ("model", 20), ("controller", 20)]

/-- The dict `LOW_RISK_PATTERNS`, in source order. -/
def LOW_RISK_PATTERNS : List (String × Int) :=
  [("component", 5), ("style", 5), ("css", 5),
   ("test", 0), ("spec", 0), ("doc", 0), ("readme", 0)]

/-- One tier of `_score_text_patterns`: fold the running maximum over the
patterns that occur in the text. -/
def patternTierMax (text : String) (pats : List (String × Int)) (acc : Int) : Int :=
  pats.foldl (fun m ps => if strContains text ps.1 then max m ps.2 else m) acc

/-- Embeds `CheckpointAgent._score_text_patterns`. -/
def scoreTextPatterns (text : String) : Int :=
  let m1 := patternTierMax text HIGH_RISK_PATTERNS 0
  let m2 := if m1 < 25 then patternTierMax text MEDIUM_RISK_PATTERNS m1 else m1
  if m2 < 10 then patternTierMax text LOW_RISK_PATTERNS m2 else m2

/-- Embeds `CheckpointAgent._calculate_file_count_score`. -/
def calcFileCountScore (f : PyDict) : PyM Int := do
  let files := dictGet f "files" (.list [])
  let fileCount ← if pyTruthy files then pyLen files else pure 0
  pure (if fileCount ≤ 3 then 0
        else if fileCount ≤ 6 then 10
        else if fileCount ≤ 10 then 15
        else 25)

/-- Embeds `CheckpointAgent._calculate_file_type_score`. -/
def calcFileTypeScore (f : PyDict) : PyM Int := do
  let files := dictGet f "files" (.list [])
  if !pyTruthy files then
    let n ← pyAsStr (dictGet f "name" (.str ""))
    let d ← pyAsStr (dictGet f "description" (.str ""))
    let c ← pyAsStr (dictGet f "category" (.str ""))
    pure (scoreTextPatterns (strLower (n ++ " " ++ d ++ " " ++ c)))
  else do
    let elems ← pyIter files
    pure (elems.foldl (fun m fp => max m (scoreTextPatterns (strLower (pyStr fp)))) 0)

/-- The stopword set of `_is_similar_feature`. -/
def commonWords : List String :=
  ["the", "a", "an", "and", "or", "for", "to", "of", "in", "on"]

/-- Embeds `CheckpointAgent._is_similar_feature`: the feature and log names
are lower-cased, split into word sets, stripped of stopwords; similarity
holds when at least 2 words are shared or the overlap exceeds half of the
smaller word set (the float comparison `a / b > 0.5` on the small word-set
sizes involved is the exact rational comparison `2 * a > b`). -/
def isSimilarFeature (f : PyDict) (log : PyVal) : PyM Bool := do
  let featureName ← pyAttrLower (dictGet f "name" (.str ""))
  let logNameVal ← pyGetAttrD log "name" (.str "")
  let logName ← pyAttrLower logNameVal
  let fw := (wordSet featureName).filter (fun w => !commonWords.contains w)
  let lw := (wordSet logName).filter (fun w => !commonWords.contains w)
  if fw.isEmpty || lw.isEmpty then pure false
  else
    let overlap := fw.filter (fun w => lw.contains w)
    pure (overlap.length ≥ 2 || 2 * overlap.length > min fw.length lw.length)

/-- Embeds `CheckpointAgent._load_recent_logs`: the most recent `count` log
files are read, unreadable ones (falsy parse results) are dropped. -/
def loadRecentLogs (logDocs : List PyVal) (count : Nat) : List PyVal :=
  (logDocs.take count).filter pyTruthy

/-- The counting loop of `_calculate_failure_score`: for each recent log
with status `"failed"`, count it, count it again if it shares the feature
category, and count it as similar if `_is_similar_feature` holds.  Returns
`(similar_failures, category_failures, any_failures)`. -/
def failCounts (f : PyDict) : List PyVal → PyM (Nat × Nat × Nat)
  | [] => pure (0, 0, 0)
  | log :: rest => do
    let status ← pyGetAttr log "status"
    if pyEq status (.str "failed") then
      let cat ← pyGetAttr log "category"
      let catHit := pyEq cat (dictGet f "category" (.str ""))
      let sim ← isSimilarFeature f log
      let (s, c, a) ← failCounts f rest
      pure ((if sim then 1 else 0) + s, (if catHit then 1 else 0) + c, 1 + a)
    else
      failCounts f rest

/-- Embeds `CheckpointAgent._calculate_failure_score`. -/
def calcFailureScore (f : PyDict) (logDocs : List PyVal) : PyM Int := do
  let logs := loadRecentLogs logDocs 5
  let (s, c, a) ← failCounts f logs
  pure (if s > 0 then 20 else if c > 0 then 15 else if a > 0 then 10 else 0)

/-- Status test of the failure-score loop (`log.get("status") == "failed"`)
as a predicate on a stored log value (false on non-dicts, which make the
loop raise instead). -/
def logStatusFailed (l : PyVal) : Bool :=
  match l with
  | .dict kvs => pyEq (dictGet kvs "status" .none) (.str "failed")
  | _ => false

/-- Category test of the failure-score loop
(`log.get("category") == category`). -/
def logSameCategory (f : PyDict) (l : PyVal) : Bool :=
  match l with
  | .dict kvs => pyEq (dictGet kvs "category" .none) (dictGet f "category" (.str ""))
  | _ => false

/-- Similarity test as a predicate (false when `_is_similar_feature` would
raise, which cannot happen on a run that returned normally). -/
def simHit (f : PyDict) (l : PyVal) : Bool :=
  match isSimilarFeature f l with
  | .ok b => b
  | .error _ => false

/-- Embeds `CheckpointAgent._calculate_blast_radius`. -/
def calcBlastRadius (f : PyDict) : PyM Int := do
  let deps := dictGet f "dependencies" (.list [])
  let aff := dictGet f "affectedFeatures" (.list [])
  let l1 ← pyLen deps
  let l2 ← pyLen aff
  let total := l1 + l2
  pure (if total ≥ 5 then 25 else if total ≥ 3 then 15 else if total ≥ 1 then 10 else 0)

/-- The decision tier chosen by `assess_risk` from the summed score. -/
def checkpointDecisionType (total : Int) : String :=
  if total ≤ AUTO_PROCEED_THRESHOLD then "auto-proceed"
  else if total < SOFT_CHECKPOINT_THRESHOLD then "soft-checkpoint"
  else "hard-checkpoint"

/-- The human-readable reason string assembled by `assess_risk`. -/
def checkpointReason (fcs fts rfs brs : Int) : String :=
  let parts :=
    (if fts > 0 then [s!"High-risk file types ({fts} pts)"] else []) ++
    (if fcs > 10 then [s!"Multiple files ({fcs} pts)"] else []) ++
    (if rfs > 0 then [s!"Recent failures ({rfs} pts)"] else []) ++
    (if brs > 10 then [s!"Wide impact ({brs} pts)"] else [])
  if parts.isEmpty then "Low risk" else String.intercalate ", " parts

/-- The decision record built by `assess_risk` from the four sub-scores. -/
def mkCheckpointDecision (f : PyDict) (now fcs fts rfs brs : Int) : CheckpointDecision :=
  let total := fcs + fts + rfs + brs
  { feature_id := dictGet f "id" (.str "unknown")
    decision := checkpointDecisionType total
    risk_score := total
    risk_factors := ⟨fcs, fts, rfs, brs, total⟩
    reason := checkpointReason fcs fts rfs brs
    timestamp := now }

/-- The body of the `try` block of `CheckpointAgent.assess_risk`: the four
sub-scores are computed in source order (the first raised exception wins)
and combined into a decision. -/
def assessRiskCore (f : PyDict) (logDocs : List PyVal) (now : Int) : PyM CheckpointDecision := do
  let fcs ← calcFileCountScore f
  let fts ← calcFileTypeScore f
  let rfs ← calcFailureScore f logDocs
  let brs ← calcBlastRadius f
  pure (mkCheckpointDecision f now fcs fts rfs brs)

/-- The safe default decision returned by the `except` branch of
`assess_risk`. -/
def defaultCheckpointDecision (f : PyDict) (e : PyErr) (now : Int) : CheckpointDecision :=
  { feature_id := dictGet f "id" (.str "unknown")
    decision := "soft-checkpoint"
    risk_score := 50
    risk_factors := ⟨0, 0, 0, 0, 50⟩
    reason := "Assessment error: " ++ pyErrStr e
    timestamp := now }

/-- Embeds the whole method `CheckpointAgent.assess_risk`, including the
statements outside the `try` block: the progress message computed before
the `try` (an f-string over `feature.get`, which cannot raise on a dict)
and the `except Exception` handler building the safe default. -/
def assessRisk (f : PyDict) (logDocs : List PyVal) (now : Int) : PyM CheckpointDecision := do
  let _startMsg := "Assessing risk for " ++ pyStr (dictGet f "name" (.str "unknown")) ++ "..."
  match assessRiskCore f logDocs now with
  | .ok d => pure d
  | .error e => pure (defaultCheckpointDecision f e now)

/-! ## State Store (`harness_agent.py`)

The blackboard document is a Python dict, modelled as an insertion-ordered
association list with unique-key update semantics. -/

/-- Assignment `d[k] = v` on a Python dict: replace the value at an existing
key in place, append a fresh key at the end. -/
def dictSetKey (kvs : PyDict) (k : String) (v : PyVal) : PyDict :=
  match kvs with
  | [] => [(k, v)]
  | (k0, v0) :: rest => if k0 = k then (k0, v) :: rest else (k0, v0) :: dictSetKey rest k v

/-- Python `current.update(updates)`: assign every key/value pair of
`updates` in order. -/
def dictUpdate (cur : PyDict) (updates : PyDict) : PyDict :=
  updates.foldl (fun d kv => dictSetKey d kv.1 kv.2) cur

/-- Key lookup on the modelled dict (first match). -/
def dictFind (kvs : PyDict) (k : String) : Option PyVal :=
  match kvs with
  | [] => Option.none
  | (k0, v) :: rest => if k0 = k then some v else dictFind rest k

/-- Embeds `HarnessAgent.write_blackboard`: read the current document, merge
the updates shallowly, stamp `lastUpdated` with the current time, persist
the whole document. -/
def writeBlackboard (cur : PyDict) (updates : PyDict) (now : Int) : PyDict :=
  dictSetKey (dictUpdate cur updates) "lastUpdated" (.int now)

/-! ## Context Memory Engine (`context_agent.py`)

The four context ledgers are persisted JSON documents; the engine state
holds each stored document as its parsed value (`Option PyVal`, with
`Option.none` for a missing or unparseable file, collapsing to the
read-site default exactly as `read_json_file` does), the per-feature log
documents, and the blackboard document.  Reconstructing a dataclass from a
stored document (`RunningSummary(**data)` and the per-record analogues)
raises a TypeError on a non-dict document or a key-set mismatch; the model
additionally requires the stored field values to have the declared field
types, which is observationally equivalent for the embedded operations
because every wrongly typed field makes the first downstream use of the
record raise before anything is persisted. -/

/-- Embeds `estimate_tokens` (4 characters per token, integer division). -/
def estimateTokens (text : String) : Nat := text.length / 4

/-- Python string slice `s[:n]`. -/
def strTake (s : String) (n : Nat) : String := String.mk (s.toList.take n)

/-- Running summary of project state (`RunningSummary`). -/
structure RunningSummary where
  content : String
  token_count : Int
  updated_at : Int
  trigger : String
  features_since_last_update : Int
  total_features_completed : Int
deriving Repr, DecidableEq

/-- Critical design decision (`KeyDecision`). -/
structure KeyDecision where
  id : String
  feature_id : String
  decision : String
  rationale : String
  impact : List String
  timestamp : Int
  category : String
deriving Repr, DecidableEq

/-- Record of failure with root cause (`FailureRecord`). -/
structure FailureRecord where
  id : String
  feature_id : String
  description : String
  root_cause : String
  resolution : String
  prevention : String
  timestamp : Int
  severity : String
deriving Repr, DecidableEq

/-- Active constraint limiting implementation (`ActiveConstraint`). -/
structure ActiveConstraint where
  id : String
  description : String
  reason : String
  affected_areas : List String
  added_at : Int
  expires_at : Option Int
  type : String
deriving Repr, DecidableEq

/-- Field decoder: string. -/
def pvStr : PyVal → PyM String
  | .str s => pure s
  | _ => throw (.typeError "expected a str field")

/-- Field decoder: int. -/
def pvInt : PyVal → PyM Int
  | .int n => pure n
  | _ => throw (.typeError "expected an int field")

/-- Field decoder: optional int (`None` allowed). -/
def pvOptInt : PyVal → PyM (Option Int)
  | .none => pure Option.none
  | .int n => pure (some n)
  | _ => throw (.typeError "expected an int field or None")

/-- Field decoder: list of strings. -/
def pvStrList : PyVal → PyM (List String)
  | .list xs => xs.mapM pvStr
  | _ => throw (.typeError "expected a list field")

/-- Keyword-argument check of `Dataclass(**data)`: the keys of `data` must
be exactly the dataclass fields (missing or unexpected keys raise a
TypeError). -/
def keysExactly (kvs : PyDict) (expected : List String) : Bool :=
  kvs.length = expected.length && expected.all (fun k => (dictFind kvs k).isSome)

/-- Required keyword argument of a dataclass constructor. -/
def reqKey (kvs : PyDict) (k : String) : PyM PyVal :=
  match dictFind kvs k with
  | some v => pure v
  | Option.none => throw (.typeError ("missing required argument: " ++ k))

/-- Reconstruction `RunningSummary(**data)` from a stored document. -/
def parseRunningSummary (v : PyVal) : PyM RunningSummary := do
  match v with
  | .dict kvs =>
    if keysExactly kvs ["content", "token_count", "updated_at", "trigger",
        "features_since_last_update", "total_features_completed"] then do
      let content ← reqKey kvs "content" >>= pvStr
      let tokenCount ← reqKey kvs "token_count" >>= pvInt
      let updatedAt ← reqKey kvs "updated_at" >>= pvInt
      let trigger ← reqKey kvs "trigger" >>= pvStr
      let sinceLast ← reqKey kvs "features_since_last_update" >>= pvInt
      let total ← reqKey kvs "total_features_completed" >>= pvInt
      pure ⟨content, tokenCount, updatedAt, trigger, sinceLast, total⟩
    else throw (.typeError "unexpected keyword arguments for RunningSummary")
  | _ => throw (.typeError "argument after ** must be a mapping")

/-- Serialization `asdict(summary)` of a running summary. -/
def dumpRunningSummary (s : RunningSummary) : PyVal :=
  .dict [("content", .str s.content), ("token_count", .int s.token_count),
         ("updated_at", .int s.updated_at), ("trigger", .str s.trigger),
         ("features_since_last_update", .int s.features_since_last_update),
         ("total_features_completed", .int s.total_features_completed)]

/-- Reconstruction `KeyDecision(**d)` from a stored record. -/
def parseKeyDecision (v : PyVal) : PyM KeyDecision := do
  match v with
  | .dict kvs =>
    if keysExactly kvs ["id", "feature_id", "decision", "rationale",
        "impact", "timestamp", "category"] then do
      let i ← reqKey kvs "id" >>= pvStr
      let fid ← reqKey kvs "feature_id" >>= pvStr
      let dec ← reqKey kvs "decision" >>= pvStr
      let rat ← reqKey kvs "rationale" >>= pvStr
      let imp ← reqKey kvs "impact" >>= pvStrList
      let ts ← reqKey kvs "timestamp" >>= pvInt
      let cat ← reqKey kvs "category" >>= pvStr
      pure ⟨i, fid, dec, rat, imp, ts, cat⟩
    else throw (.typeError "unexpected keyword arguments for KeyDecision")
  | _ => throw (.typeError "argument after ** must be a mapping")

/-- Serialization `asdict(decision)` of a key decision. -/
def dumpKeyDecision (d : KeyDecision) : PyVal :=
  .dict [("id", .str d.id), ("feature_id", .str d.feature_id),
         ("decision", .str d.decision), ("rationale", .str d.rationale),
         ("impact", .list (d.impact.map .str)), ("timestamp", .int d.timestamp),
         ("category", .str d.category)]

/-- Reconstruction `FailureRecord(**f)` from a stored record. -/
def parseFailureRecord (v : PyVal) : PyM FailureRecord := do
  match v with
  | .dict kvs =>
    if keysExactly kvs ["id", "feature_id", "description", "root_cause",
        "resolution", "prevention", "timestamp", "severity"] then do
      let i ← reqKey kvs "id" >>= pvStr
      let fid ← reqKey kvs "feature_id" >>= pvStr
      let desc ← reqKey kvs "description" >>= pvStr
      let rc ← reqKey kvs "root_cause" >>= pvStr
      let res ← reqKey kvs "resolution" >>= pvStr
      let prev ← reqKey kvs "prevention" >>= pvStr
      let ts ← reqKey kvs "timestamp" >>= pvInt
      let sev ← reqKey kvs "severity" >>= pvStr
      pure ⟨i, fid, desc, rc, res, prev, ts, sev⟩
    else throw (.typeError "unexpected keyword arguments for FailureRecord")
  | _ => throw (.typeError "argument after ** must be a mapping")

/-- Serialization `asdict(record)` of a failure record. -/
def dumpFailureRecord (f : FailureRecord) : PyVal :=
  .dict [("id", .str f.id), ("feature_id", .str f.feature_id),
         ("description", .str f.description), ("root_cause", .str f.root_cause),
         ("resolution", .str f.resolution), ("prevention", .str f.prevention),
         ("timestamp", .int f.timestamp), ("severity", .str f.severity)]

/-- Reconstruction `ActiveConstraint(**c)` from a stored record. -/
def parseActiveConstraint (v : PyVal) : PyM ActiveConstraint := do
  match v with
  | .dict kvs =>
    if keysExactly kvs ["id", "description", "reason", "affected_areas",
        "added_at", "expires_at", "type"] then do
      let i ← reqKey kvs "id" >>= pvStr
      let desc ← reqKey kvs "description" >>= pvStr
      let reason ← reqKey kvs "reason" >>= pvStr
      let areas ← reqKey kvs "affected_areas" >>= pvStrList
      let added ← reqKey kvs "added_at" >>= pvInt
      let expires ← reqKey kvs "expires_at" >>= pvOptInt
      let ty ← reqKey kvs "type" >>= pvStr
      pure ⟨i, desc, reason, areas, added, expires, ty⟩
    else throw (.typeError "unexpected keyword arguments for ActiveConstraint")
  | _ => throw (.typeError "argument after ** must be a mapping")

/-- Serialization `asdict(constraint)` of an active constraint. -/
def dumpActiveConstraint (c : ActiveConstraint) : PyVal :=
  .dict [("id", .str c.id), ("description", .str c.description),
         ("reason", .str c.reason),
         ("affected_areas", .list (c.affected_areas.map .str)),
         ("added_at", .int c.added_at),
         ("expires_at", match c.expires_at with
                        | some t => .int t
                        | Option.none => .none),
         ("type", .str c.type)]

/-- State of the Context Memory Engine: the four context documents, the
per-feature log documents and the blackboard document. -/
structure ContextState where
  summaryDoc : Option PyVal
  decisionsDoc : Option PyVal
  failuresDoc : Option PyVal
  constraintsDoc : Option PyVal
  logsStore : List (String × PyVal)
  blackboard : PyDict
deriving Repr

/-- Embeds `ContextAgent.load_running_summary`: a missing, unparseable or
falsy document yields no summary; otherwise the stored document is
reconstructed. -/
def loadRunningSummary (doc : Option PyVal) : PyM (Option RunningSummary) :=
  match doc with
  | Option.none => pure Option.none
  | some v =>
    if pyTruthy v then (parseRunningSummary v).map some
    else pure Option.none

/-- Embeds the `load_decisions` / `load_failures` / `load_constraints`
pattern: the stored document defaults to an empty list; a truthy document
is iterated and each element reconstructed. -/
def loadRecordList (parse : PyVal → PyM α) (doc : Option PyVal) : PyM (List α) := do
  let data := doc.getD (.list [])
  if pyTruthy data then do
    let elems ← pyIter data
    elems.mapM parse
  else pure []

/-- Embeds `ContextAgent.load_feature_logs`: per-feature log documents are
looked up by id; missing or falsy documents are dropped. -/
def loadFeatureLogs (logsStore : List (String × PyVal)) (ids : List String) : List (String × PyVal) :=
  ids.filterMap fun fid =>
    match dictFind logsStore fid with
    | some data => if pyTruthy data then some (fid, data) else Option.none
    | Option.none => Option.none

/-- Injection bundle returned by `get_injection`. -/
structure InjectionBundle where
  summary : String
  decisions : List KeyDecision
  failures : List FailureRecord
  constraints : List ActiveConstraint
  tokenCount : Int
deriving Repr, DecidableEq

/-- Embeds `ContextAgent.get_injection`.  The method has no exception
handler.  After loading the four ledgers it returns an empty bundle when no
summary exists; otherwise it selects the first 5 decisions and first 3
failures, sums the token cost, and builds the result dict.  Building the
result dict evaluates the comprehension over the selected failures, whose
body reads the unbound name `f` (source line
`"failures": [asdict(f) for d in relevant_failures]`), so a NameError is
raised as soon as at least one failure is selected. -/
def getInjection (st : ContextState) : PyM InjectionBundle := do
  let summary? ← loadRunningSummary st.summaryDoc
  let decisions ← loadRecordList parseKeyDecision st.decisionsDoc
  let failures ← loadRecordList parseFailureRecord st.failuresDoc
  let constraints ← loadRecordList parseActiveConstraint st.constraintsDoc
  match summary? with
  | Option.none => pure ⟨"", [], [], [], 0⟩
  | some s =>
    let relevantDecisions := decisions.take 5
    let relevantFailures := failures.take 3
    let total : Int := s.token_count + 50 * relevantDecisions.length +
      50 * relevantFailures.length + 30 * constraints.length
    if relevantFailures.isEmpty then
      pure ⟨s.content, relevantDecisions, relevantFailures, constraints, total⟩
    else
      throw (.nameError "name f is not defined")

/-- The concatenated text built by `_create_summary`: the truncated previous
summary (when one exists), a recent-updates header, and one status line per
completed-feature log. -/
def buildSummaryContent (current : Option RunningSummary)
    (featureLogs : List (String × PyVal)) : PyM String := do
  let prevParts : List String :=
    match current with
    | some cur => ["## Previous State\n" ++ strTake cur.content 500 ++ "..."]
    | Option.none => []
  let header := s!"\n## Recent Updates ({featureLogs.length} features)"
  let statusLines ← featureLogs.mapM fun fl => do
    let nameVal ← pyGetAttrD fl.2 "name" (.str fl.1)
    let statusVal ← pyGetAttrD fl.2 "status" (.str "unknown")
    pure ("- " ++ pyStr nameVal ++ ": " ++ pyStr statusVal)
  pure (String.intercalate "\n" (prevParts ++ [header] ++ statusLines))

/-- The carried-forward total of `_create_summary`
(`current.total_features_completed if current else 0`). -/
def prevTotal : Option RunningSummary → Int
  | some cur => cur.total_features_completed
  | Option.none => 0

/-- Embeds `ContextAgent._create_summary`: estimate the token count of the
built text; when the estimate exceeds 2000 tokens, cut the text to its
first 8000 characters and report the count as exactly 2000.  The all-time
completed counter carries the previous total (0 when no summary exists)
plus the number of newly completed features. -/
def createSummary (current : Option RunningSummary)
    (featureLogs : List (String × PyVal)) (trigger : String)
    (numFeatures : Nat) (now : Int) : PyM RunningSummary := do
  let content ← buildSummaryContent current featureLogs
  let tokenCount := estimateTokens content
  let (content, tokenCount) :=
    if tokenCount > 2000 then (strTake content 8000, 2000) else (content, tokenCount)
  let totalCompleted : Int := prevTotal current + (numFeatures : Int)
  pure { content := content
         token_count := (tokenCount : Int)
         updated_at := now
         trigger := trigger
         features_since_last_update := (numFeatures : Int)
         total_features_completed := totalCompleted }

/-- Embeds `ContextAgent._extract_decisions` (an extension point that
currently yields no decisions). -/
def extractDecisions (_featureLogs : List (String × PyVal)) : List KeyDecision := []

/-- Embeds `ContextAgent._extract_failures` (an extension point that
currently yields no failures). -/
def extractFailures (_featureLogs : List (String × PyVal)) : List FailureRecord := []

/-- Stable descending insertion by key, modelling
`sorted(xs, key=key, reverse=True)`. -/
def insertDescBy (key : α → Int) (x : α) : List α → List α
  | [] => [x]
  | y :: ys => if key x ≥ key y then x :: y :: ys else y :: insertDescBy key x ys

/-- Stable descending sort by key, modelling
`sorted(xs, key=key, reverse=True)`. -/
def sortDescBy (key : α → Int) : List α → List α
  | [] => []
  | x :: xs => insertDescBy key x (sortDescBy key xs)

/-- Result dict of `ContextAgent.summarize`. -/
structure SummarizeResult where
  success : Bool
  summary : Option RunningSummary
  newDecisions : Nat
  newFailures : Nat
  activeConstraints : Nat
  error : Option String
deriving Repr, DecidableEq

/-- The body of the `try` block of `ContextAgent.summarize`: load the four
ledgers and the completed-feature logs, build the new running summary,
extract (currently no) decisions and failures, cap the decision and
failure ledgers at 20 and 10 most-recent records, drop expired
constraints, persist everything and merge a summary into the blackboard. -/
def summarizeCore (st : ContextState) (completedFeatures : List String)
    (trigger : String) (now : Int) : PyM (SummarizeResult × ContextState) := do
  let currentSummary ← loadRunningSummary st.summaryDoc
  let decisions ← loadRecordList parseKeyDecision st.decisionsDoc
  let failures ← loadRecordList parseFailureRecord st.failuresDoc
  let constraints ← loadRecordList parseActiveConstraint st.constraintsDoc
  let featureLogs := loadFeatureLogs st.logsStore completedFeatures
  let newSummary ← createSummary currentSummary featureLogs trigger
    completedFeatures.length now
  let newDecisions := extractDecisions featureLogs
  let newFailures := extractFailures featureLogs
  let allDecisions := (sortDescBy (fun d => d.timestamp) (decisions ++ newDecisions)).take 20
  let allFailures := (sortDescBy (fun fr => fr.timestamp) (failures ++ newFailures)).take 10
  let activeConstraints := constraints.filter fun c =>
    match c.expires_at with
    | Option.none => true
    | some t => t > now
  let st' : ContextState :=
    { st with
      summaryDoc := some (dumpRunningSummary newSummary)
      decisionsDoc := some (.list (allDecisions.map dumpKeyDecision))
      failuresDoc := some (.list (allFailures.map dumpFailureRecord))
      constraintsDoc := some (.list (activeConstraints.map dumpActiveConstraint))
      blackboard := writeBlackboard st.blackboard
        [("contextSummary", .dict
            [("content", .str newSummary.content),
             ("tokenCount", .int newSummary.token_count),
             ("lastUpdated", .int newSummary.updated_at)]),
         ("lastContextUpdate", .int newSummary.updated_at),
         ("totalFeaturesCompleted", .int newSummary.total_features_completed)] now }
  pure ({ success := true
          summary := some newSummary
          newDecisions := newDecisions.length
          newFailures := newFailures.length
          activeConstraints := activeConstraints.length
          error := Option.none }, st')

/-- Embeds the whole method `ContextAgent.summarize`: the `try` body on
success, and the `except Exception` handler, which reports a non-fatal
failure result and (having reached no save) leaves the stored state
unchanged. -/
def summarize (st : ContextState) (completedFeatures : List String)
    (trigger : String) (now : Int) : SummarizeResult × ContextState :=
  match summarizeCore st completedFeatures trigger now with
  | .ok r => r
  | .error e =>
    ({ success := false
       summary := Option.none
       newDecisions := 0
       newFailures := 0
       activeConstraints := 0
       error := some (pyErrStr e) }, st)

/-- The current all-time completed total recorded in the stored summary
document (0 when none is stored or it does not reconstruct). -/
def storedTotal (st : ContextState) : Int :=
  match loadRunningSummary st.summaryDoc with
  | .ok (some s) => s.total_features_completed
  | _ => 0

/-- A stored context state with a running summary and one persisted failure
record, the smallest state on which an injection should bundle a failure. -/
def injectionFailureState : ContextState :=
  { summaryDoc := some (dumpRunningSummary ⟨"Project summary", 10, 0, "manual", 0, 2⟩)
    decisionsDoc := Option.none
    failuresDoc := some (.list
      [dumpFailureRecord ⟨"fail-1", "feat-001", "desc", "cause", "fix", "prevent", 5, "low"⟩])
    constraintsDoc := Option.none
    logsStore := []
    blackboard := [] }

/-! ## Impact Engine (`impact_agent.py`)

Feature descriptors reaching `assess_impact` come from the orchestrator and
carry the documented fields; they are embedded as a typed record whose
fields are optional, so every `feature.get(key, default)` of the source
appears as an `Option.getD`.  A `completed_feature` argument of `None` and
an empty dict are observationally identical throughout the method (both are
falsy, both make every `.get` yield its default), so the argument is one
`Option IFeature`.  The persistence side effects (`_save_assessment`,
`_update_revision_flags`, `write_blackboard`) do not influence the returned
assessment and are modelled as infallible; with them infallible the `try`
body is total, and the `except` fallback (an empty assessment) is noted
where relevant. -/

/-- A feature descriptor as consumed by the Impact Engine. -/
structure IFeature where
  id : Option String := Option.none
  name : Option String := Option.none
  status : Option String := Option.none
  files : Option (List String) := Option.none
  dependencies : Option (List String) := Option.none
  spec : Option String := Option.none
deriving Repr, DecidableEq

/-- The feature standing for `completed_feature or {}`. -/
def emptyIFeature : IFeature := {}

/-- Detailed conflict information (`ConflictDetail`). -/
structure ConflictDetail where
  conflict_type : String
  severity : Int
  description : String
  affected_files : List String
  completed_feature_id : String
  evidence : PyDict
deriving Repr

/-- Feature flagged for potential revision (`FlaggedFeature`). -/
structure FlaggedFeature where
  feature_id : String
  feature_name : String
  conflict_score : Int
  conflicts : List ConflictDetail
  recommendation : String
  proposed_changes : Option PyDict := Option.none
  proposed_revision : Option String := Option.none
  respec_reason : Option String := Option.none
  dependency_chain : List String := []
deriving Repr

/-- Complete impact assessment result (`ImpactAssessment`). -/
structure ImpactAssessment where
  trigger : String
  trigger_feature_id : Option String
  trigger_category : Option String
  analyzed_features : Nat
  flagged_features : List FlaggedFeature
  timestamp : Int
  analysis_time_ms : Int
deriving Repr

/-- Conflict scoring thresholds of the Impact Engine. -/
def NO_ACTION_THRESHOLD : Int := 30

/-- Threshold `MINOR_ADJUSTMENT_THRESHOLD`. -/
def MINOR_ADJUSTMENT_THRESHOLD : Int := 60

/-- Threshold `MODERATE_REVISION_THRESHOLD`. -/
def MODERATE_REVISION_THRESHOLD : Int := 80

/-- Severity `API_BREAK_SEVERITY`. -/
def API_BREAK_SEVERITY : Int := 40

/-- Severity `RESOURCE_COLLISION_SEVERITY`. -/
def RESOURCE_COLLISION_SEVERITY : Int := 20

/-- Severity `ARCH_DRIFT_MAJOR_SEVERITY`. -/
def ARCH_DRIFT_MAJOR_SEVERITY : Int := 15

/-- Severity `DEPENDENCY_INVALID_SEVERITY`. -/
def DEPENDENCY_INVALID_SEVERITY : Int := 35

/-- Score `DIRECT_DEPENDENCY_SCORE`. -/
def DIRECT_DEPENDENCY_SCORE : Int := 25

/-- Character class `[a-zA-Z0-9/_-]` of the endpoint pattern. -/
def epClassChar (c : Char) : Bool :=
  (65 ≤ c.toNat && c.toNat ≤ 90) || (97 ≤ c.toNat && c.toNat ≤ 122) ||
  (48 ≤ c.toNat && c.toNat ≤ 57) || c == '/' || c == '_' || c == '-'

/-- Emission of a pending endpoint match: the accumulator holds the match
characters in reverse; a bare slash (no class character after it) is not a
match of `/[a-zA-Z0-9/_-]+`. -/
def emitEndpoint (acc : List Char) : List String :=
  if acc.length ≥ 2 then [String.mk acc.reverse] else []

/-- Scanner state machine for the endpoint pattern `/[a-zA-Z0-9/_-]+`:
outside a match, only a slash can begin one (other class characters are
skipped); inside a match, the greedy quantifier consumes every class
character (including further slashes), and the match is emitted at the
first non-class character.  This walks the text exactly as the
non-overlapping leftmost-greedy `re.findall` of `_extract_endpoints`
does. -/
def scanEndpoints : List Char → Option (List Char) → List String
  | [], some acc => emitEndpoint acc
  | [], Option.none => []
  | c :: rest, some acc =>
    if epClassChar c then scanEndpoints rest (some (c :: acc))
    else emitEndpoint acc ++ scanEndpoints rest Option.none
  | c :: rest, Option.none =>
    if c = '/' then scanEndpoints rest (some ['/'])
    else scanEndpoints rest Option.none

/-- Non-overlapping leftmost-greedy matches of the endpoint pattern
`/[a-zA-Z0-9/_-]+`, modelling `re.findall` in `_extract_endpoints`. -/
def scanEndpointRuns (cs : List Char) : List String :=
  scanEndpoints cs Option.none

/-- Prefix test for strings (Python `startswith`). -/
def strStarts (s pre : String) : Bool := charsPrefix pre.toList s.toList

/-- Embeds `ImpactAgent._extract_endpoints`: path-like tokens of the spec
text that start with `/api` or `/auth`. -/
def extractEndpoints (sp : String) : List String :=
  (scanEndpointRuns sp.toList).filter fun ep =>
    strStarts ep "/api" || strStarts ep "/auth"

/-- Embeds `ImpactAgent._endpoint_potentially_changed`: the endpoint
argument is not inspected; the check is whether any touched file path
carries a route/api naming hint. -/
def endpointPotentiallyChanged (completed : IFeature) (_ep : String) : Bool :=
  (completed.files.getD []).any fun fp =>
    ["route", "api", "endpoint", "controller"].any fun kw =>
      strContains (strLower fp) kw

/-- Embeds `ImpactAgent._detect_api_breaks`. -/
def detectApiBreaks (completed future : IFeature) : List ConflictDetail :=
  (extractEndpoints (future.spec.getD "")).filterMap fun ep =>
    if endpointPotentiallyChanged completed ep then
      some { conflict_type := "api-break"
             severity := API_BREAK_SEVERITY
             description := s!"API endpoint {ep} may have changed"
             affected_files := completed.files.getD []
             completed_feature_id := completed.id.getD "unknown"
             evidence := [("expectedEndpoint", .str ep),
                          ("completedFiles", .list ((completed.files.getD []).map .str))] }
    else Option.none

/-- Lookup in a string-to-string association list (the pattern dicts of
`_extract_arch_patterns`). -/
def lookupStr (kvs : List (String × String)) (k : String) : Option String :=
  match kvs with
  | [] => Option.none
  | (k0, v) :: rest => if k0 = k then some v else lookupStr rest k

/-- Embeds `ImpactAgent._extract_arch_patterns`: coarse categorical tags
along the api/state/data/auth axes, first matching keyword family wins per
axis. -/
def extractArchPatterns (sp : String) : List (String × String) :=
  let lower := strLower sp
  (if strContains lower "graphql" then [("api", "graphql")]
   else if strContains lower "rest" || strContains lower "restful" then [("api", "rest")]
   else []) ++
  (if strContains lower "redux" then [("state", "redux")]
   else if strContains lower "context" then [("state", "context")]
   else []) ++
  (if strContains lower "sql" || strContains lower "postgres" || strContains lower "mysql" then
     [("data", "sql")]
   else if strContains lower "nosql" || strContains lower "mongo" then [("data", "nosql")]
   else []) ++
  (if strContains lower "oauth" then [("auth", "oauth")]
   else if strContains lower "jwt" then [("auth", "jwt")]
   else [])

/-- Embeds `ImpactAgent._detect_arch_drift`. -/
def detectArchDrift (completed future : IFeature) : List ConflictDetail :=
  let cp := extractArchPatterns (completed.spec.getD "")
  let fp := extractArchPatterns (future.spec.getD "")
  ["api", "state", "data", "auth"].filterMap fun pt =>
    match lookupStr cp pt, lookupStr fp pt with
    | some cv, some fv =>
      if cv ≠ fv then
        some { conflict_type := "arch-drift"
               severity := ARCH_DRIFT_MAJOR_SEVERITY
               description := s!"Architecture mismatch in {pt}: {cv} vs {fv}"
               affected_files := completed.files.getD []
               completed_feature_id := completed.id.getD "unknown"
               evidence := [("patternType", .str pt), ("completedPattern", .str cv),
                            ("futurePattern", .str fv)] }
      else Option.none
    | _, _ => Option.none

/-- Embeds `ImpactAgent._detect_resource_conflicts`: the set intersection
of the two touched-file lists, one severity-20 conflict when non-empty. -/
def detectResourceConflicts (completed future : IFeature) : List ConflictDetail :=
  let overlapping := ((completed.files.getD []).dedup).filter fun fp =>
    (future.files.getD []).contains fp
  if overlapping.isEmpty then []
  else
    [{ conflict_type := "resource-collision"
       severity := RESOURCE_COLLISION_SEVERITY
       description := s!"{overlapping.length} files modified by both features"
       affected_files := overlapping
       completed_feature_id := completed.id.getD "unknown"
       evidence := [("overlappingFiles", .list (overlapping.map .str))] }]

/-- Embeds `ImpactAgent._detect_dependency_invalidation`. -/
def detectDependencyInvalidation (completed future : IFeature) : List ConflictDetail :=
  let completedId := completed.id.getD ""
  if (future.dependencies.getD []).contains completedId then
    if completed.status == some "failed" then
      [{ conflict_type := "dependency-invalid"
         severity := DEPENDENCY_INVALID_SEVERITY
         description := s!"Depends on failed feature {completedId}"
         affected_files := completed.files.getD []
         completed_feature_id := completedId
         evidence := [("dependencyStatus", .str "failed"),
                      ("dependencyId", .str completedId)] }]
    else []
  else []

/-- Embeds `ImpactAgent._detect_all_conflicts`: the union of the four
detector outputs, in source order. -/
def detectAllConflicts (completed future : IFeature) : List ConflictDetail :=
  detectApiBreaks completed future ++ detectArchDrift completed future ++
  detectResourceConflicts completed future ++
  detectDependencyInvalidation completed future

/-- Embeds `ImpactAgent._calculate_dependency_score`: 25 for a direct
dependency, transitive analysis unimplemented. -/
def calcDependencyScore (completed future : IFeature) : Int :=
  if (future.dependencies.getD []).contains (completed.id.getD "") then
    DIRECT_DEPENDENCY_SCORE
  else 0

/-- Embeds `ImpactAgent._generate_recommendation`. -/
def generateRecommendation (conflictScore : Int) : String :=
  if conflictScore ≤ NO_ACTION_THRESHOLD then "no-action"
  else if conflictScore ≤ MINOR_ADJUSTMENT_THRESHOLD then "minor-adjustment"
  else if conflictScore ≤ MODERATE_REVISION_THRESHOLD then "moderate-revision"
  else "major-respec"

/-- Append a value to the list stored under a key of the changes dict
(`changes[k] = changes.get(k, []); changes[k].append(v)`). -/
def appendToListKey (d : PyDict) (k : String) (v : PyVal) : PyDict :=
  let cur := match dictFind d k with
             | some (.list xs) => xs
             | _ => []
  dictSetKey d k (.list (cur ++ [v]))

/-- Embeds `ImpactAgent._generate_proposed_changes`. -/
def generateProposedChanges (conflicts : List ConflictDetail) : PyDict :=
  conflicts.foldl
    (fun changes c =>
      if c.conflict_type = "api-break" then
        match dictFind c.evidence "expectedEndpoint" with
        | some epv =>
          appendToListKey changes "endpoints"
            (.dict [("old", epv), ("action", .str "verify-or-update")])
        | Option.none => changes
      else if c.conflict_type = "resource-collision" then
        appendToListKey changes "files"
          (.dict [("conflicting", .list (c.affected_files.map .str)),
                  ("action", .str "review-collision")])
      else changes)
    []

/-- Embeds `ImpactAgent._generate_proposed_revision`. -/
def generateProposedRevision (conflicts : List ConflictDetail) : String :=
  let parts := conflicts.filterMap fun c =>
    if c.conflict_type = "api-break" then
      some ("- Verify API endpoint " ++ pyStr (dictGet c.evidence "expectedEndpoint" .none) ++
            " is still valid after " ++ c.completed_feature_id)
    else if c.conflict_type = "arch-drift" then
      some ("- Adjust architecture to match " ++
            pyStr (dictGet c.evidence "completedPattern" .none) ++
            " pattern instead of " ++ pyStr (dictGet c.evidence "futurePattern" .none))
    else if c.conflict_type = "resource-collision" then
      some ("- Resolve file collision in " ++
            String.intercalate ", " (c.affected_files.take 3))
    else Option.none
  if parts.isEmpty then "Review and update spec based on conflicts"
  else String.intercalate "\n" parts

/-- Embeds `ImpactAgent._generate_respec_reason`. -/
def generateRespecReason (conflicts : List ConflictDetail) : String :=
  let reasons := conflicts.filterMap fun c =>
    if c.severity ≥ API_BREAK_SEVERITY then
      some s!"Critical {c.conflict_type}: {c.description}"
    else Option.none
  if reasons.isEmpty then "Multiple high-severity conflicts detected"
  else String.intercalate "; " reasons

/-- Embeds `ImpactAgent._build_dependency_chain` (ids are appended only
when truthy, so an empty id string is dropped). -/
def buildDependencyChain (completed future : IFeature) : List String :=
  (match completed.id with
   | some i => if i ≠ "" then [i] else []
   | Option.none => []) ++
  (match future.id with
   | some i => if i ≠ "" then [i] else []
   | Option.none => [])

/-- Embeds `ImpactAgent._get_dependent_features`. -/
def getDependentFeatures (completed : IFeature) (remaining : List IFeature) : List IFeature :=
  remaining.filter fun f => (f.dependencies.getD []).contains (completed.id.getD "")

/-- The flagged-feature record built by the analysis loop of
`assess_impact` for one candidate with a non-empty conflict list. -/
def mkFlaggedFeature (completed future : IFeature) (conflicts : List ConflictDetail) : FlaggedFeature :=
  let conflictScore := (conflicts.map (fun c => c.severity)).sum +
    calcDependencyScore completed future
  let recommendation := generateRecommendation conflictScore
  { feature_id := future.id.getD "unknown"
    feature_name := future.name.getD "Unknown"
    conflict_score := conflictScore
    conflicts := conflicts
    recommendation := recommendation
    proposed_changes :=
      if recommendation = "minor-adjustment" then some (generateProposedChanges conflicts)
      else Option.none
    proposed_revision :=
      if recommendation = "moderate-revision" then some (generateProposedRevision conflicts)
      else Option.none
    respec_reason :=
      if recommendation = "major-respec" then some (generateRespecReason conflicts)
      else Option.none
    dependency_chain := buildDependencyChain completed future }

/-- The analysis loop of `assess_impact`: candidates whose four detectors
report no conflict are skipped (`if not conflicts: continue`); the rest are
flagged. -/
def flagFeatures (completed : IFeature) : List IFeature → List FlaggedFeature
  | [] => []
  | fut :: rest =>
    let conflicts := detectAllConflicts completed fut
    if conflicts.isEmpty then flagFeatures completed rest
    else mkFlaggedFeature completed fut conflicts :: flagFeatures completed rest

/-- Embeds `ImpactAgent.assess_impact`.  The analysis scope is the direct
dependents of the completed feature when the scope is
`"direct-dependencies"` and a completed feature is given, all remaining
features otherwise.  `analysis_time_ms` is wall-clock and passed in. -/
def assessImpact (completedFeature : Option IFeature)
    (completedCategory : Option String) (trigger scope : String)
    (remainingFeatures : List IFeature) (now analysisMs : Int) : ImpactAssessment :=
  let featuresToAnalyze :=
    if scope = "direct-dependencies" && completedFeature.isSome then
      getDependentFeatures (completedFeature.getD emptyIFeature) remainingFeatures
    else remainingFeatures
  { trigger := trigger
    trigger_feature_id := completedFeature.bind (fun c => c.id)
    trigger_category := completedCategory
    analyzed_features := featuresToAnalyze.length
    flagged_features := flagFeatures (completedFeature.getD emptyIFeature) featuresToAnalyze
    timestamp := now
    analysis_time_ms := analysisMs }

/-! ## Helper lemmas -/

/-- Inversion of a successful monadic bind in `PyM`. -/
theorem pym_bind_ok {α β : Type} {m : PyM α} {k : α → PyM β} {r : β}
    (h : (m >>= k) = .ok r) : ∃ a, m = .ok a ∧ k a = .ok r := by
  cases m with
  | ok a => exact ⟨a, rfl, h⟩
  | error e => exact absurd h (fun hh => Except.noConfusion hh)

/-- Inversion of a successful `pure` in `PyM`. -/
theorem pym_pure_ok {α : Type} {x r : α} (h : (pure x : PyM α) = .ok r) : x = r :=
  Except.ok.inj h

/-- A fold whose step never decreases the accumulator never goes below the
initial accumulator. -/
theorem foldl_le_of_step {α : Type} (step : Int → α → Int)
    (hstep : ∀ m x, m ≤ step m x) :
    ∀ (l : List α) (acc : Int), acc ≤ l.foldl step acc := by
  intro l
  induction l with
  | nil => intro acc; exact le_refl acc
  | cons x xs ih =>
    intro acc
    exact le_trans (hstep acc x) (ih (step acc x))

/-- The tier fold of `_score_text_patterns` never decreases its
accumulator. -/
theorem patternTierMax_ge (text : String) (pats : List (String × Int)) (acc : Int) :
    acc ≤ patternTierMax text pats acc := by
  unfold patternTierMax
  refine foldl_le_of_step _ (fun m ps => ?_) pats acc
  by_cases h : strContains text ps.1 = true
  · simp [h]
  · simp [h]

/-- The text-pattern score is non-negative. -/
theorem scoreTextPatterns_nonneg (text : String) : 0 ≤ scoreTextPatterns text := by
  have h1 := patternTierMax_ge text HIGH_RISK_PATTERNS 0
  have h2 := patternTierMax_ge text MEDIUM_RISK_PATTERNS
    (patternTierMax text HIGH_RISK_PATTERNS 0)
  have h3 := patternTierMax_ge text LOW_RISK_PATTERNS
    (patternTierMax text MEDIUM_RISK_PATTERNS (patternTierMax text HIGH_RISK_PATTERNS 0))
  have h4 := patternTierMax_ge text LOW_RISK_PATTERNS
    (patternTierMax text HIGH_RISK_PATTERNS 0)
  unfold scoreTextPatterns
  dsimp only
  split <;> split <;> omega

/-- Possible results of the file-count sub-score. -/
theorem calcFileCountScore_ok {f : PyDict} {r : Int}
    (h : calcFileCountScore f = .ok r) : r = 0 ∨ r = 10 ∨ r = 15 ∨ r = 25 := by
  simp only [calcFileCountScore] at h
  split at h <;>
  · obtain ⟨n, -, hr⟩ := pym_bind_ok h
    have hv := pym_pure_ok hr
    split_ifs at hv <;> omega

/-- The file-type sub-score is non-negative. -/
theorem calcFileTypeScore_ok {f : PyDict} {r : Int}
    (h : calcFileTypeScore f = .ok r) : 0 ≤ r := by
  simp only [calcFileTypeScore] at h
  split at h
  · obtain ⟨n, -, h⟩ := pym_bind_ok h
    obtain ⟨d, -, h⟩ := pym_bind_ok h
    obtain ⟨c, -, h⟩ := pym_bind_ok h
    have hv := pym_pure_ok h
    subst hv
    exact scoreTextPatterns_nonneg _
  · obtain ⟨elems, -, h⟩ := pym_bind_ok h
    have hv := pym_pure_ok h
    subst hv
    exact foldl_le_of_step _ (fun m fp => le_max_left _ _) elems 0

/-- Possible results of the recent-failure sub-score. -/
theorem calcFailureScore_ok {f : PyDict} {logs : List PyVal} {r : Int}
    (h : calcFailureScore f logs = .ok r) : r = 0 ∨ r = 10 ∨ r = 15 ∨ r = 20 := by
  simp only [calcFailureScore] at h
  obtain ⟨⟨s, c, a⟩, -, hr⟩ := pym_bind_ok h
  have hv := pym_pure_ok hr
  split_ifs at hv <;> omega

/-- Possible results of the blast-radius sub-score. -/
theorem calcBlastRadius_ok {f : PyDict} {r : Int}
    (h : calcBlastRadius f = .ok r) : r = 0 ∨ r = 10 ∨ r = 15 ∨ r = 25 := by
  simp only [calcBlastRadius] at h
  obtain ⟨l1, -, h⟩ := pym_bind_ok h
  obtain ⟨l2, -, h⟩ := pym_bind_ok h
  have hv := pym_pure_ok h
  split_ifs at hv <;> omega

/-- Inversion of a successful `try`-body run of `assess_risk`: the decision
is built from the four successfully computed sub-scores. -/
theorem assessRiskCore_ok {f : PyDict} {logs : List PyVal} {now : Int}
    {d : CheckpointDecision} (h : assessRiskCore f logs now = .ok d) :
    ∃ a b c e, calcFileCountScore f = .ok a ∧ calcFileTypeScore f = .ok b ∧
      calcFailureScore f logs = .ok c ∧ calcBlastRadius f = .ok e ∧
      d = mkCheckpointDecision f now a b c e := by
  simp only [assessRiskCore] at h
  obtain ⟨a, ha, h⟩ := pym_bind_ok h
  obtain ⟨b, hb, h⟩ := pym_bind_ok h
  obtain ⟨c, hc, h⟩ := pym_bind_ok h
  obtain ⟨e, he, h⟩ := pym_bind_ok h
  exact ⟨a, b, c, e, ha, hb, hc, he, (pym_pure_ok h).symm⟩

/-- Any decision returned by `assess_risk` comes either from the `try` body
or from the `except` handler. -/
theorem assessRisk_ok_cases {f : PyDict} {logs : List PyVal} {now : Int}
    {d : CheckpointDecision} (h : assessRisk f logs now = .ok d) :
    assessRiskCore f logs now = .ok d ∨
      ∃ e, assessRiskCore f logs now = .error e ∧
        d = defaultCheckpointDecision f e now := by
  simp only [assessRisk] at h
  cases hc : assessRiskCore f logs now with
  | ok d0 =>
    left
    rw [hc] at h
    have := pym_pure_ok h
    rwa [this] at hc
  | error e =>
    right
    rw [hc] at h
    exact ⟨e, rfl, (pym_pure_ok h).symm⟩

/-- Characterization of the decision tier chosen from a summed score. -/
theorem checkpointDecisionType_iff (t : Int) :
    ((checkpointDecisionType t = "auto-proceed") ↔ t ≤ 30) ∧
    ((checkpointDecisionType t = "soft-checkpoint") ↔ 31 ≤ t ∧ t ≤ 69) ∧
    ((checkpointDecisionType t = "hard-checkpoint") ↔ 70 ≤ t) := by
  unfold checkpointDecisionType AUTO_PROCEED_THRESHOLD SOFT_CHECKPOINT_THRESHOLD
  split_ifs with h1 h2 <;> refine ⟨?_, ?_, ?_⟩ <;> simp_all <;> omega

/-- C1: for every feature dict, recent-log state and call time, the decision
tier of the checkpoint assessment is determined by its risk score alone:
auto-proceed exactly when the score is at most 30, soft-checkpoint exactly
when it is between 31 and 69, and hard-checkpoint exactly when it is at
least 70. -/
theorem claim_C1_decision_thresholds (f : PyDict) (logs : List PyVal) (now : Int)
    (d : CheckpointDecision) (h : assessRisk f logs now = .ok d) :
    ((d.decision = "auto-proceed") ↔ d.risk_score ≤ 30) ∧
    ((d.decision = "soft-checkpoint") ↔ 31 ≤ d.risk_score ∧ d.risk_score ≤ 69) ∧
    ((d.decision = "hard-checkpoint") ↔ 70 ≤ d.risk_score) := by
  rcases assessRisk_ok_cases h with hcore | ⟨e, hcore, hd⟩
  · obtain ⟨a, b, c, e, -, -, -, -, hd⟩ := assessRiskCore_ok hcore
    subst hd
    simpa [mkCheckpointDecision] using checkpointDecisionType_iff (a + b + c + e)
  · subst hd
    refine ⟨?_, ?_, ?_⟩ <;> (simp only [defaultCheckpointDecision]; decide)

/-- C1 witness: the empty feature dict scores 0 and auto-proceeds. -/
theorem claim_C1_witness :
    (((mkCheckpointDecision [] 0 0 0 0 0).decision = "auto-proceed") ↔
      (mkCheckpointDecision [] 0 0 0 0 0).risk_score ≤ 30) ∧
    (((mkCheckpointDecision [] 0 0 0 0 0).decision = "soft-checkpoint") ↔
      31 ≤ (mkCheckpointDecision [] 0 0 0 0 0).risk_score ∧
        (mkCheckpointDecision [] 0 0 0 0 0).risk_score ≤ 69) ∧
    (((mkCheckpointDecision [] 0 0 0 0 0).decision = "hard-checkpoint") ↔
      70 ≤ (mkCheckpointDecision [] 0 0 0 0 0).risk_score) :=
  claim_C1_decision_thresholds [] [] 0 (mkCheckpointDecision [] 0 0 0 0 0) rfl

/-- C5: the Impact Engine recommendation is a pure function of the conflict
score with tiers at 30, 60 and 80: no-action for scores at most 30,
minor-adjustment for 31 through 60, moderate-revision for 61 through 80,
major-respec strictly above 80; in particular 25, 45, 70 and 90 map to the
four tiers in order. -/
theorem claim_C5_recommendation_thresholds (s : Int) :
    ((generateRecommendation s = "no-action") ↔ s ≤ 30) ∧
    ((generateRecommendation s = "minor-adjustment") ↔ 31 ≤ s ∧ s ≤ 60) ∧
    ((generateRecommendation s = "moderate-revision") ↔ 61 ≤ s ∧ s ≤ 80) ∧
    ((generateRecommendation s = "major-respec") ↔ 80 < s) ∧
    generateRecommendation 25 = "no-action" ∧
    generateRecommendation 45 = "minor-adjustment" ∧
    generateRecommendation 70 = "moderate-revision" ∧
    generateRecommendation 90 = "major-respec" := by
  refine ⟨?_, ?_, ?_, ?_, rfl, rfl, rfl, rfl⟩ <;>
  · unfold generateRecommendation NO_ACTION_THRESHOLD MINOR_ADJUSTMENT_THRESHOLD
      MODERATE_REVISION_THRESHOLD
    split_ifs <;> simp_all <;> omega

/-- C3 counterexample: on the feature dict `{"files": 5}` (a malformed
feature whose file list is an int) the assessment takes the internal
failure path and returns the safe default, whose risk score is 50 while its
four recorded sub-scores sum to 0, so the claimed equality evaluates to
false on this decision. -/
theorem claim_C3_counterexample :
    (assessRisk [("files", PyVal.int 5)] [] 0).map
      (fun d =>
        (d.risk_score,
         d.risk_factors.file_count_score + d.risk_factors.file_type_score +
           d.risk_factors.recent_failures_score + d.risk_factors.blast_radius_score,
         decide (d.risk_score =
           d.risk_factors.file_count_score + d.risk_factors.file_type_score +
             d.risk_factors.recent_failures_score + d.risk_factors.blast_radius_score))) =
    .ok (50, 0, false) := rfl

/-- C3 (amended): every decision returned by the checkpoint assessment has
four non-negative recorded sub-scores; on the normal path its risk score is
their exact sum, while a decision produced on an internal failure records
all four sub-scores as 0 with risk score 50. -/
theorem claim_C3_riskScore_sum (f : PyDict) (logs : List PyVal) (now : Int)
    (d : CheckpointDecision) (h : assessRisk f logs now = .ok d) :
    (0 ≤ d.risk_factors.file_count_score ∧ 0 ≤ d.risk_factors.file_type_score ∧
     0 ≤ d.risk_factors.recent_failures_score ∧ 0 ≤ d.risk_factors.blast_radius_score) ∧
    (d.risk_score = d.risk_factors.file_count_score + d.risk_factors.file_type_score +
        d.risk_factors.recent_failures_score + d.risk_factors.blast_radius_score ∨
      (d.risk_factors = ⟨0, 0, 0, 0, 50⟩ ∧ d.risk_score = 50 ∧
        ∃ e, assessRiskCore f logs now = .error e)) := by
  rcases assessRisk_ok_cases h with hcore | ⟨e, hcore, hd⟩
  · obtain ⟨a, b, c, e, ha, hb, hc, he, hd⟩ := assessRiskCore_ok hcore
    subst hd
    have h1 := calcFileCountScore_ok ha
    have h2 := calcFileTypeScore_ok hb
    have h3 := calcFailureScore_ok hc
    have h4 := calcBlastRadius_ok he
    refine ⟨⟨?_, ?_, ?_, ?_⟩, Or.inl ?_⟩ <;> simp only [mkCheckpointDecision] <;> omega
  · subst hd
    refine ⟨⟨le_refl 0, le_refl 0, le_refl 0, le_refl 0⟩,
      Or.inr ⟨rfl, rfl, e, hcore⟩⟩

/-- C3 witness: the empty feature dict takes the normal path, with risk
score 0 equal to the sum of its four zero sub-scores. -/
theorem claim_C3_witness :
    (0 ≤ (mkCheckpointDecision [] 0 0 0 0 0).risk_factors.file_count_score ∧
     0 ≤ (mkCheckpointDecision [] 0 0 0 0 0).risk_factors.file_type_score ∧
     0 ≤ (mkCheckpointDecision [] 0 0 0 0 0).risk_factors.recent_failures_score ∧
     0 ≤ (mkCheckpointDecision [] 0 0 0 0 0).risk_factors.blast_radius_score) ∧
    ((mkCheckpointDecision [] 0 0 0 0 0).risk_score =
        (mkCheckpointDecision [] 0 0 0 0 0).risk_factors.file_count_score +
        (mkCheckpointDecision [] 0 0 0 0 0).risk_factors.file_type_score +
        (mkCheckpointDecision [] 0 0 0 0 0).risk_factors.recent_failures_score +
        (mkCheckpointDecision [] 0 0 0 0 0).risk_factors.blast_radius_score ∨
      ((mkCheckpointDecision [] 0 0 0 0 0).risk_factors = ⟨0, 0, 0, 0, 50⟩ ∧
        (mkCheckpointDecision [] 0 0 0 0 0).risk_score = 50 ∧
        ∃ e, assessRiskCore [] [] 0 = .error e)) :=
  claim_C3_riskScore_sum [] [] 0 (mkCheckpointDecision [] 0 0 0 0 0) rfl

/-- C7: for every feature dict, recent-log state and call time the
assessment never raises to its caller; whenever the `try` body fails
internally, the returned decision is the safe default: soft-checkpoint,
risk score 50, and a reason embedding the error text. -/
theorem claim_C7_never_raises (f : PyDict) (logs : List PyVal) (now : Int) :
    (∃ d, assessRisk f logs now = .ok d) ∧
    (∀ e, assessRiskCore f logs now = .error e →
      assessRisk f logs now = .ok (defaultCheckpointDecision f e now) ∧
      (defaultCheckpointDecision f e now).decision = "soft-checkpoint" ∧
      (defaultCheckpointDecision f e now).risk_score = 50 ∧
      (defaultCheckpointDecision f e now).reason = "Assessment error: " ++ pyErrStr e) := by
  cases hc : assessRiskCore f logs now with
  | ok d =>
    exact ⟨⟨d, by simp only [assessRisk, hc]; rfl⟩, fun e he => nomatch he⟩
  | error e0 =>
    refine ⟨⟨defaultCheckpointDecision f e0 now, by simp only [assessRisk, hc]; rfl⟩,
      fun e he => ?_⟩
    have he0 : e0 = e := Except.error.inj he
    subst he0
    exact ⟨by simp only [assessRisk, hc]; rfl, rfl, rfl, rfl⟩

/-- C7 witness: on the malformed feature dict `{"files": 5}` the `try` body
fails with a TypeError and the assessment still returns, with the safe
default decision. -/
theorem claim_C7_witness :
    assessRisk [("files", PyVal.int 5)] [] 0 =
      .ok (defaultCheckpointDecision [("files", PyVal.int 5)]
        (.typeError "object has no len") 0) ∧
    (defaultCheckpointDecision [("files", PyVal.int 5)]
        (.typeError "object has no len") 0).decision = "soft-checkpoint" :=
  ⟨((claim_C7_never_raises [("files", PyVal.int 5)] [] 0).2
      (.typeError "object has no len") rfl).1,
   ((claim_C7_never_raises [("files", PyVal.int 5)] [] 0).2
      (.typeError "object has no len") rfl).2.1⟩

/-- Every record produced by the analysis loop carries a non-empty conflict
list. -/
theorem flagFeatures_conflicts_nonempty (completed : IFeature) (feats : List IFeature) :
    ((flagFeatures completed feats).all fun fl => !fl.conflicts.isEmpty) = true := by
  induction feats with
  | nil => rfl
  | cons fut rest ih =>
    simp only [flagFeatures]
    split
    · exact ih
    · rename_i hne
      simp only [List.all_cons, ih, Bool.and_true, mkFlaggedFeature]
      simpa using hne

/-- Candidates on which all four detectors are silent produce no flagged
record at all. -/
theorem flagFeatures_skips_conflict_free (completed : IFeature) (feats : List IFeature) :
    flagFeatures completed
      (feats.filter fun fut => (detectAllConflicts completed fut).isEmpty) = [] := by
  induction feats with
  | nil => rfl
  | cons fut rest ih =>
    simp only [List.filter_cons]
    split
    · rename_i he
      simp only [flagFeatures, he, if_pos]
      exact ih
    · exact ih

/-- C10: in every assessment the Impact Engine produces, each flagged
feature has a non-empty conflicts list, and a candidate on which all four
conflict detectors are silent is never flagged (so the 25-point direct
dependency bonus alone never produces a flagged entry). -/
theorem claim_C10_flagged_nonempty (completedFeature : Option IFeature)
    (completedCategory : Option String) (trigger scope : String)
    (remainingFeatures : List IFeature) (now analysisMs : Int) :
    (((assessImpact completedFeature completedCategory trigger scope
          remainingFeatures now analysisMs).flagged_features.all
        fun fl => !fl.conflicts.isEmpty) = true) ∧
    (∀ completed : IFeature, ∀ feats : List IFeature,
      flagFeatures completed
        (feats.filter fun fut => (detectAllConflicts completed fut).isEmpty) = []) := by
  constructor
  · simp only [assessImpact]
    exact flagFeatures_conflicts_nonempty _ _
  · exact flagFeatures_skips_conflict_free

/-- Lookup after a single dict assignment. -/
theorem dictFind_dictSetKey (kk : String) (vv : PyVal) (k : String) :
    ∀ d : PyDict, dictFind (dictSetKey d kk vv) k =
      if kk = k then some vv else dictFind d k := by
  intro d
  induction d with
  | nil => simp [dictSetKey, dictFind]
  | cons kv rest ih =>
    obtain ⟨k0, v0⟩ := kv
    by_cases h1 : k0 = kk <;> by_cases h2 : kk = k <;>
      simp_all [dictSetKey, dictFind]

/-- Lookup in a concatenation of association lists. -/
theorem dictFind_append (a b : PyDict) (k : String) :
    dictFind (a ++ b) k =
      match dictFind a k with
      | some v => some v
      | Option.none => dictFind b k := by
  induction a with
  | nil => simp [dictFind]
  | cons kv rest ih =>
    obtain ⟨k0, v0⟩ := kv
    by_cases h : k0 = k <;> simp [dictFind, h, ih]

/-- Lookup after `current.update(updates)`: the last occurrence of a key in
`updates` wins (a Python dict holds each key once), and other keys keep
their value in `current`. -/
theorem dictFind_dictUpdate (updates : PyDict) :
    ∀ (cur : PyDict) (k : String),
      dictFind (dictUpdate cur updates) k =
        match dictFind updates.reverse k with
        | some v => some v
        | Option.none => dictFind cur k := by
  induction updates with
  | nil => intro cur k; simp [dictUpdate, dictFind]
  | cons kv us ih =>
    intro cur k
    obtain ⟨k0, v0⟩ := kv
    have hstep : dictUpdate cur ((k0, v0) :: us) = dictUpdate (dictSetKey cur k0 v0) us := rfl
    rw [hstep, ih, List.reverse_cons, dictFind_append]
    cases h : dictFind us.reverse k with
    | some v => simp
    | none =>
      rw [dictFind_dictSetKey]
      by_cases h2 : k0 = k <;> simp [dictFind, h2]

/-- C8 (amended): after `write_blackboard(updates)` the persisted document
carries a freshly stamped `lastUpdated`; every other key maps to its value
in `updates` when `updates` binds it (the last binding wins, as in a Python
dict, whose keys are unique) and to its prior value otherwise, so no
pre-existing key outside `updates` is removed or altered. -/
theorem claim_C8_write_merge (cur updates : PyDict) (now : Int) (k : String) :
    dictFind (writeBlackboard cur updates now) k =
      if k = "lastUpdated" then some (.int now)
      else
        match dictFind updates.reverse k with
        | some v => some v
        | Option.none => dictFind cur k := by
  unfold writeBlackboard
  rw [dictFind_dictSetKey, dictFind_dictUpdate]
  by_cases h : k = "lastUpdated"
  · simp [h]
  · rw [if_neg (fun hh => h hh.symm), if_neg h]

/-- C8 counterexample: writing the updates dict `{"lastUpdated": 5}` at
time 7 leaves the persisted document mapping `lastUpdated` to 7, not to the
value 5 given in the updates, so the claim that every key of `updates` ends
up at its updates value fails. -/
theorem claim_C8_counterexample :
    dictFind [("lastUpdated", PyVal.int 5)] "lastUpdated" = some (PyVal.int 5) ∧
    dictFind (writeBlackboard [] [("lastUpdated", PyVal.int 5)] 7) "lastUpdated" =
      some (PyVal.int 7) ∧
    PyVal.int 7 ≠ PyVal.int 5 := by
  refine ⟨rfl, rfl, ?_⟩
  intro h
  injection h with h2
  omega


/-- The truncation behaviour of `_create_summary`: the reported token count
never exceeds 2000; it is the 4-characters-per-token estimate of the built
text when that estimate fits, and exactly 2000 with the text cut to 8000
characters when it does not. -/
theorem createSummary_charact {current : Option RunningSummary}
    {featureLogs : List (String × PyVal)} {trigger : String}
    {numFeatures : Nat} {now : Int} {s : RunningSummary}
    (h : createSummary current featureLogs trigger numFeatures now = .ok s) :
    s.token_count ≤ 2000 ∧
    ∃ content, buildSummaryContent current featureLogs = .ok content ∧
      (estimateTokens content ≤ 2000 →
        s.content = content ∧ s.token_count = (estimateTokens content : Int)) ∧
      (2000 < estimateTokens content →
        s.content = strTake content 8000 ∧ s.token_count = 2000) := by
  simp only [createSummary] at h
  obtain ⟨content, hc, h⟩ := pym_bind_ok h
  by_cases hgt : estimateTokens content > 2000
  · rw [if_pos hgt] at h
    have hv := pym_pure_ok h
    rw [← hv]
    refine ⟨?_, content, hc, fun hle => absurd hle (by omega),
      fun hx => ⟨rfl, ?_⟩⟩
    · show ((2000 : Nat) : Int) ≤ 2000
      decide
    · show ((2000 : Nat) : Int) = 2000
      decide
  · rw [if_neg hgt] at h
    have hv := pym_pure_ok h
    rw [← hv]
    refine ⟨?_, content, hc, fun hle => ⟨rfl, rfl⟩, fun hx => absurd hx (by omega)⟩
    show (estimateTokens content : Int) ≤ 2000
    omega

/-- The all-time completed counter of the new summary is the previous total
(0 when no summary existed) plus the number of newly completed features. -/
theorem createSummary_total {current : Option RunningSummary}
    {featureLogs : List (String × PyVal)} {trigger : String}
    {numFeatures : Nat} {now : Int} {s : RunningSummary}
    (h : createSummary current featureLogs trigger numFeatures now = .ok s) :
    s.total_features_completed = prevTotal current + (numFeatures : Int) := by
  simp only [createSummary] at h
  obtain ⟨content, -, h⟩ := pym_bind_ok h
  by_cases hgt : estimateTokens content > 2000 <;>
    [rw [if_pos hgt] at h; rw [if_neg hgt] at h] <;>
  · have hv := pym_pure_ok h
    rw [← hv]

/-- A freshly dumped running-summary document reloads to the same summary
(the stored dict is truthy and reconstructs field by field). -/
theorem loadRunningSummary_dump (s : RunningSummary) :
    loadRunningSummary (some (dumpRunningSummary s)) = .ok (some s) := rfl

/-- Inversion of a successful `try`-body run of `summarize`: the result is
flagged successful, carries the summary built by `_create_summary` from the
loaded state, and the new summary is persisted. -/
theorem summarizeCore_ok {st : ContextState} {ids : List String}
    {trig : String} {now : Int} {res : SummarizeResult} {st' : ContextState}
    (h : summarizeCore st ids trig now = .ok (res, st')) :
    ∃ cur newSummary,
      loadRunningSummary st.summaryDoc = .ok cur ∧
      createSummary cur (loadFeatureLogs st.logsStore ids) trig ids.length now =
        .ok newSummary ∧
      res.success = true ∧ res.summary = some newSummary ∧
      st'.summaryDoc = some (dumpRunningSummary newSummary) := by
  simp only [summarizeCore] at h
  obtain ⟨cur, hcur, h⟩ := pym_bind_ok h
  obtain ⟨ds, hds, h⟩ := pym_bind_ok h
  obtain ⟨fs, hfs, h⟩ := pym_bind_ok h
  obtain ⟨cs, hcs, h⟩ := pym_bind_ok h
  obtain ⟨newS, hnew, h⟩ := pym_bind_ok h
  have hv := pym_pure_ok h
  have h1 := congrArg Prod.fst hv
  have h2 := congrArg Prod.snd hv
  simp only at h1 h2
  refine ⟨cur, newS, hcur, hnew, ?_, ?_, ?_⟩
  · rw [← h1]
  · rw [← h1]
  · rw [← h2]

/-- C9: each successful summarize call advances the stored all-time
completed counter by exactly the number of newly completed feature ids (so
the counter never decreases), and a failed summarize call leaves the whole
stored context state unchanged. -/
theorem claim_C9_total_monotone (st : ContextState) (ids : List String)
    (trig : String) (now : Int) :
    if (summarize st ids trig now).1.success then
      storedTotal (summarize st ids trig now).2 = storedTotal st + (ids.length : Int) ∧
      storedTotal st ≤ storedTotal (summarize st ids trig now).2
    else (summarize st ids trig now).2 = st := by
  cases hc : summarizeCore st ids trig now with
  | error e => simp [summarize, hc]
  | ok pr =>
    obtain ⟨res, st'⟩ := pr
    obtain ⟨cur, newS, hcur, hnew, hsucc, hsum, hdoc⟩ := summarizeCore_ok hc
    have htot := createSummary_total hnew
    have hafter : storedTotal st' = newS.total_features_completed := by
      unfold storedTotal
      rw [hdoc, loadRunningSummary_dump]
    have hbefore : storedTotal st = prevTotal cur := by
      unfold storedTotal
      rw [hcur]
      cases cur <;> rfl
    simp only [summarize, hc, hsucc, if_true]
    rw [hafter, hbefore, htot]
    constructor
    · rfl
    · omega

/-- C6: the running summary built by a summarization never reports a token
count above 2000: the count is the content length divided by 4 when that
estimate is at most 2000, and otherwise the content is cut to its first
8000 characters with the count reported as exactly 2000; consequently any
summary carried in a successful summarize result is within the budget. -/
theorem claim_C6_summary_token_bound (current : Option RunningSummary)
    (featureLogs : List (String × PyVal)) (trigger : String)
    (numFeatures : Nat) (now : Int) (s : RunningSummary)
    (h : createSummary current featureLogs trigger numFeatures now = .ok s) :
    (s.token_count ≤ 2000 ∧
     ∃ content, buildSummaryContent current featureLogs = .ok content ∧
       (estimateTokens content ≤ 2000 →
         s.content = content ∧ s.token_count = (estimateTokens content : Int)) ∧
       (2000 < estimateTokens content →
         s.content = strTake content 8000 ∧ s.token_count = 2000)) ∧
    (∀ st ids trig2 now2 s2, (summarize st ids trig2 now2).1.summary = some s2 →
      s2.token_count ≤ 2000) := by
  refine ⟨createSummary_charact h, fun st ids trig2 now2 s2 h2 => ?_⟩
  cases hc : summarizeCore st ids trig2 now2 with
  | error e => simp [summarize, hc] at h2
  | ok pr =>
    obtain ⟨res, st'⟩ := pr
    obtain ⟨cur, newS, hcur, hnew, hsucc, hsum, hdoc⟩ := summarizeCore_ok hc
    rw [show (summarize st ids trig2 now2).1 = res from by simp [summarize, hc]] at h2
    rw [hsum] at h2
    have hs2 : newS = s2 := Option.some.inj h2
    rw [← hs2]
    exact (createSummary_charact hnew).1

/-- C6 witness: summarizing no features over no prior summary builds the
header-only text, whose estimate 7 is within the budget. -/
theorem claim_C6_witness :
    createSummary Option.none [] "manual" 0 0 =
      .ok ⟨"\x0a## Recent Updates (0 features)", 7, 0, "manual", 0, 0⟩ ∧
    (⟨"\x0a## Recent Updates (0 features)", 7, 0, "manual", 0, 0⟩ :
      RunningSummary).token_count ≤ 2000 :=
  ⟨rfl, (claim_C6_summary_token_bound Option.none [] "manual" 0 0 _ rfl).1.1⟩

/-- C2: on a stored state with a summary and one failure record,
`get_injection` raises a NameError (its failure comprehension reads the
unbound name `f`) instead of returning the bundle; moreover no successful
injection can ever carry a failure record, contradicting the contract that
the bundle holds the 3 most-recent failures. -/
theorem claim_C2_injection_name_error :
    getInjection injectionFailureState = .error (.nameError "name f is not defined") ∧
    (∀ st b, getInjection st = .ok b → b.failures = []) := by
  refine ⟨rfl, fun st b h => ?_⟩
  simp only [getInjection] at h
  obtain ⟨sum?, hs, h⟩ := pym_bind_ok h
  obtain ⟨ds, hd, h⟩ := pym_bind_ok h
  obtain ⟨fs, hf, h⟩ := pym_bind_ok h
  obtain ⟨cs, hcon, h⟩ := pym_bind_ok h
  cases sum? with
  | none =>
    have hv := pym_pure_ok h
    rw [← hv]
  | some s =>
    dsimp only at h
    by_cases hemp : (List.take 3 fs).isEmpty = true
    · rw [if_pos hemp] at h
      have hv := pym_pure_ok h
      rw [← hv]
      simpa using hemp
    · rw [if_neg hemp] at h
      exact absurd h (fun hh => Except.noConfusion hh)

/-- C4 counterexample: one recent log whose name shares the two significant
words `login` and `page` with the feature, but whose status is `"passed"`:
the similarity test holds, yet the recent-failure score is 0, not the 20
the claim assigns to any name-similar log. -/
theorem claim_C4_counterexample :
    isSimilarFeature [("name", PyVal.str "login page")]
      (.dict [("name", PyVal.str "user login page"), ("status", PyVal.str "passed")]) =
      .ok true ∧
    calcFailureScore [("name", PyVal.str "login page")]
      [.dict [("name", PyVal.str "user login page"), ("status", PyVal.str "passed")]] =
      .ok 0 := ⟨rfl, rfl⟩

/-- Characterization of the three failure counters over a log list the loop
processed without raising: each counter is positive exactly when some log
satisfies the corresponding test. -/
theorem failCounts_ok_charact (f : PyDict) :
    ∀ (logs : List PyVal) (s c a : Nat), failCounts f logs = .ok (s, c, a) →
      (0 < s ↔ (logs.any fun l => logStatusFailed l && simHit f l) = true) ∧
      (0 < c ↔ (logs.any fun l => logStatusFailed l && logSameCategory f l) = true) ∧
      (0 < a ↔ (logs.any logStatusFailed) = true) := by
  intro logs
  induction logs with
  | nil =>
    intro s c a h
    have hv := pym_pure_ok h
    obtain ⟨hs, hc, ha⟩ : 0 = s ∧ 0 = c ∧ 0 = a := by
      simpa [Prod.ext_iff] using hv
    simp [← hs, ← hc, ← ha]
  | cons l ls ih =>
    intro s c a h
    simp only [failCounts] at h
    obtain ⟨status, hst, h⟩ := pym_bind_ok h
    obtain ⟨kvs, hl⟩ : ∃ kvs, l = .dict kvs := by
      cases l <;> simp [pyGetAttr] at hst
      exact ⟨_, rfl⟩
    subst hl
    have hstv : status = dictGet kvs "status" .none := (pym_pure_ok hst).symm
    by_cases hfail : pyEq status (.str "failed") = true
    · rw [if_pos hfail] at h
      obtain ⟨cat, hcat, h⟩ := pym_bind_ok h
      obtain ⟨simb, hsim, h⟩ := pym_bind_ok h
      obtain ⟨⟨s0, c0, a0⟩, hrest, h⟩ := pym_bind_ok h
      have hv := pym_pure_ok h
      obtain ⟨hs, hc, ha⟩ :
          (if simb then 1 else 0) + s0 = s ∧
          (if pyEq cat (dictGet f "category" (.str "")) then 1 else 0) + c0 = c ∧
          1 + a0 = a := by
        simpa [Prod.ext_iff] using hv
      have hcatv : cat = dictGet kvs "category" .none := (pym_pure_ok hcat).symm
      have hfailed : logStatusFailed (.dict kvs) = true := by
        simpa [logStatusFailed, ← hstv] using hfail
      have hsimhit : simHit f (.dict kvs) = simb := by
        simp [simHit, hsim]
      have hsame : logSameCategory f (.dict kvs) =
          pyEq cat (dictGet f "category" (.str "")) := by
        simp [logSameCategory, hcatv]
      obtain ⟨ihs, ihc, iha⟩ := ih s0 c0 a0 hrest
      refine ⟨?_, ?_, ?_⟩
      · rw [List.any_cons, hfailed, hsimhit]
        cases simb <;> simp_all
        all_goals omega
      · rw [List.any_cons, hfailed, hsame]
        cases hpc : pyEq cat (dictGet f "category" (.str "")) <;> simp_all
        all_goals omega
      · rw [List.any_cons, hfailed]
        simp
        omega
    · rw [if_neg hfail] at h
      have hnotfailed : logStatusFailed (.dict kvs) = false := by
        simp only [logStatusFailed, ← hstv]
        exact Bool.not_eq_true _ |>.mp hfail
      obtain ⟨ihs, ihc, iha⟩ := ih s c a h
      refine ⟨?_, ?_, ?_⟩ <;>
        simp [List.any_cons, hnotfailed, ihs, ihc, iha]

/-- C4 (amended): over the five most-recently-modified readable log
records, the recent-failure sub-score is 20 when some log has failed AND
its feature name is similar to the current feature (at least 2 shared
significant words after stopword removal, or a word-overlap ratio above
0.5 of the smaller word set); else 15 when some failed log shares the
feature category; else 10 when any log failed; else 0.  Name similarity of
a log that did not fail contributes nothing. -/
theorem claim_C4_failure_score_tiers (f : PyDict) (logDocs : List PyVal) (r : Int)
    (h : calcFailureScore f logDocs = .ok r) :
    r = if (loadRecentLogs logDocs 5).any
            (fun l => logStatusFailed l && simHit f l) then 20
        else if (loadRecentLogs logDocs 5).any
            (fun l => logStatusFailed l && logSameCategory f l) then 15
        else if (loadRecentLogs logDocs 5).any logStatusFailed then 10
        else 0 := by
  simp only [calcFailureScore] at h
  obtain ⟨⟨s, c, a⟩, hcounts, h⟩ := pym_bind_ok h
  have hv := pym_pure_ok h
  obtain ⟨hs, hc, ha⟩ := failCounts_ok_charact f (loadRecentLogs logDocs 5) s c a hcounts
  rw [← hv]
  by_cases b1 : ((loadRecentLogs logDocs 5).any
      (fun l => logStatusFailed l && simHit f l)) = true
  · rw [if_pos (hs.mpr b1), if_pos b1]
  · have hns : ¬ s > 0 := fun hp => b1 (hs.mp hp)
    rw [if_neg hns, if_neg b1]
    by_cases b2 : ((loadRecentLogs logDocs 5).any
        (fun l => logStatusFailed l && logSameCategory f l)) = true
    · rw [if_pos (hc.mpr b2), if_pos b2]
    · have hnc : ¬ c > 0 := fun hp => b2 (hc.mp hp)
      rw [if_neg hnc, if_neg b2]
      by_cases b3 : ((loadRecentLogs logDocs 5).any logStatusFailed) = true
      · rw [if_pos (ha.mpr b3), if_pos b3]
      · have hna : ¬ a > 0 := fun hp => b3 (ha.mp hp)
        rw [if_neg hna, if_neg b3]

/-- C4 witness: one recent failed log whose name shares the words `login`
and `page` with the feature scores exactly 20, matching the tier chain. -/
theorem claim_C4_witness :
    calcFailureScore [("name", PyVal.str "login page")]
      [.dict [("name", PyVal.str "user login page"), ("status", PyVal.str "failed")]] =
      .ok 20 ∧
    (20 : Int) =
      (if (loadRecentLogs
            [.dict [("name", PyVal.str "user login page"), ("status", PyVal.str "failed")]]
            5).any
          (fun l => logStatusFailed l && simHit [("name", PyVal.str "login page")] l) then 20
       else if (loadRecentLogs
            [.dict [("name", PyVal.str "user login page"), ("status", PyVal.str "failed")]]
            5).any
          (fun l => logStatusFailed l &&
            logSameCategory [("name", PyVal.str "login page")] l) then 15
       else if (loadRecentLogs
            [.dict [("name", PyVal.str "user login page"), ("status", PyVal.str "failed")]]
            5).any logStatusFailed then 10
       else 0) :=
  ⟨rfl, claim_C4_failure_score_tiers [("name", PyVal.str "login page")]
    [.dict [("name", PyVal.str "user login page"), ("status", PyVal.str "failed")]] 20 rfl⟩

/-- C2 witness: with a stored summary and no stored failures the injection
succeeds, and its failure list is (necessarily) empty. -/
theorem claim_C2_witness :
    getInjection ⟨some (dumpRunningSummary ⟨"sum", 10, 0, "manual", 0, 2⟩),
        Option.none, Option.none, Option.none, [], []⟩ =
      .ok ⟨"sum", [], [], [], 10⟩ ∧
    (⟨"sum", [], [], [], 10⟩ : InjectionBundle).failures = [] :=
  ⟨rfl, claim_C2_injection_name_error.2
    ⟨some (dumpRunningSummary ⟨"sum", 10, 0, "manual", 0, 2⟩),
        Option.none, Option.none, Option.none, [], []⟩
    ⟨"sum", [], [], [], 10⟩ rfl⟩
